import Mathlib

/-!
Verification of `jax/experimental/jax2tf/examples/saved_model_lib.py`.

The module under verification is a single routine `convert_and_save_model`
plus a small adapter class `_ReusableSavedModelWrapper`.  The routine
orchestrates calls into external services (`jax2tf.convert`, `tf.Variable`,
`tf.function` / `get_concrete_function`, `tf.saved_model.save`).  Those
services are modelled as deterministic symbolic constructors: the value
returned by a service call records exactly the arguments the source passes
to it, so every propagation property of the source becomes an equality on
the recorded fields.  The routine itself is embedded as a pure function
returning the ordered list of external service events it performs together
with either the raised error message or the saved artifact.
-/

namespace SavedModelLib

/-- Nested tuples/lists/dictionaries of values, as handled by `tf.nest`.
A dictionary is modelled as its ordered list of values, which is what
`tf.nest.flatten` and `tf.nest.map_structure` traverse. -/
inductive Nest (α : Type) where
  | leaf (a : α)
  | node (children : List (Nest α))
deriving Repr

mutual

/-- Model of `tf.nest.map_structure`: apply a function to every leaf, preserving the
structure. -/
def Nest.map_structure {α β : Type} (f : α → β) : Nest α → Nest β
  | .leaf a => .leaf (f a)
  | .node ts => .node (Nest.map_structureList f ts)

/-- Model of `tf.nest.map_structure` over a list of child structures. -/
def Nest.map_structureList {α β : Type} (f : α → β) : List (Nest α) → List (Nest β)
  | [] => []
  | t :: ts => Nest.map_structure f t :: Nest.map_structureList f ts

end

mutual

/-- Model of `tf.nest.flatten`: the left-to-right list of leaves of a structure. -/
def Nest.flatten {α : Type} : Nest α → List α
  | .leaf a => [a]
  | .node ts => Nest.flattenList ts

/-- Model of `tf.nest.flatten` over a list of child structures. -/
def Nest.flattenList {α : Type} : List (Nest α) → List α
  | [] => []
  | t :: ts => Nest.flatten t ++ Nest.flattenList ts

end

/-- The shape of a nested structure: the structure with every leaf erased. -/
def Nest.shape {α : Type} (t : Nest α) : Nest Unit :=
  t.map_structure (fun _ => ())

/-- A `tf.Variable`: a mutable storage cell holding one value, with an
individual `trainable` flag. -/
structure Variable (α : Type) where
  value : α
  trainable : Bool
deriving Repr

/-- The symbolic result of `jax2tf.convert`.  The conversion service is
deterministic, so its result is fully described by the arguments the source
passes to it: the JAX function (identified by an opaque id), the
`with_gradient` flag, the per-argument `polymorphic_shapes` list and the
`enable_xla` flag. -/
structure ConvertedFn where
  jax_fn : Nat
  with_gradient : Bool
  polymorphic_shapes : List (Option String)
  enable_xla : Bool
deriving Repr

/-- The symbolic result of `tf.function`: a closure over the converted
function and the parameter variables, with the `autograph` and
`jit_compile` settings the source passes. -/
structure TfGraph (α : Type) where
  fn : ConvertedFn
  param_vars : Nest (Variable α)
  autograph : Bool
  jit_compile : Bool
deriving Repr

/-- The symbolic result of `tf_graph.get_concrete_function(sig)`: the traced
specialization of a graph function for one input signature.  The tracing
service is deterministic in the graph and the signature. -/
structure ConcreteFn (α σ : Type) where
  graph : TfGraph α
  signature : σ
deriving Repr

/-- Model of `tf.saved_model.SaveOptions`.  Python objects have identity; `oid`
models it, so that mutating a caller-supplied object in place is
distinguishable from building a fresh one. -/
structure SaveOptions where
  oid : Nat
  experimental_custom_gradients : Bool
deriving Repr

/-- The value of `tf.saved_model.DEFAULT_SERVING_SIGNATURE_DEF_KEY`. -/
def DEFAULT_SERVING_SIGNATURE_DEF_KEY : String := "serving_default"

/-- Model of `_ReusableSavedModelWrapper`: the four fields set by its `__init__`. -/
structure ReusableSavedModelWrapper (α : Type) where
  «variables» : List (Variable α)
  trainable_variables : List (Variable α)
  regularization_losses : List Unit
  call : TfGraph α
deriving Repr

/-- Model of `_ReusableSavedModelWrapper.__init__`: flatten the parameter variables,
select the trainable ones, start with no regularization losses, and store
the callable. -/
def ReusableSavedModelWrapper.init {α : Type} (tf_graph : TfGraph α)
    (param_vars : Nest (Variable α)) : ReusableSavedModelWrapper α :=
  let vs := Nest.flatten param_vars
  ⟨vs, vs.filter (fun v => v.trainable), [], tf_graph⟩

/-- One call into an external service, recorded in order. -/
inductive Event (α σ : Type) where
  | convertCalled (jax_fn : Nat) (with_gradient : Bool)
      (polymorphic_shapes : List (Option String)) (enable_xla : Bool)
  | traceCalled (graph : TfGraph α) (signature : σ)
  | saveCalled (model_dir : String)
deriving Repr

/-- What `tf.saved_model.save` receives on the success path. -/
structure SavedArtifact (α σ : Type) where
  wrapper : ReusableSavedModelWrapper α
  model_dir : String
  signatures : List (String × ConcreteFn α σ)
  options : Option SaveOptions
deriving Repr

/-- The source's local `tf_fn = jax2tf.convert(jax_fn, with_gradient=...,
polymorphic_shapes=[None, polymorphic_shapes], enable_xla=...)`. -/
def tf_fn_of (jax_fn : Nat) (polymorphic_shapes : Option String)
    (with_gradient enable_xla : Bool) : ConvertedFn :=
  ⟨jax_fn, with_gradient, [none, polymorphic_shapes], enable_xla⟩

/-- The source's local `param_vars = tf.nest.map_structure(lambda param:
tf.Variable(param, trainable=with_gradient), params)`. -/
def param_vars_of {α : Type} (with_gradient : Bool) (params : Nest α) :
    Nest (Variable α) :=
  Nest.map_structure (fun param => ⟨param, with_gradient⟩) params

/-- The source's local `tf_graph = tf.function(lambda inputs:
tf_fn(param_vars, inputs), autograph=False, jit_compile=compile_model)`. -/
def tf_graph_of {α : Type} (jax_fn : Nat) (params : Nest α)
    (polymorphic_shapes : Option String)
    (with_gradient enable_xla compile_model : Bool) : TfGraph α :=
  ⟨tf_fn_of jax_fn polymorphic_shapes with_gradient enable_xla,
   param_vars_of with_gradient params, false, compile_model⟩

/-- The routine `convert_and_save_model`, embedded line by line from the source.
Returns the ordered list of external service events performed and either
the `ValueError` message raised or the artifact handed to
`tf.saved_model.save`.  `fresh_oid` is the identity a freshly allocated
`SaveOptions` object would get. -/
def convert_and_save_model {α σ : Type} (jax_fn : Nat) (params : Nest α)
    (model_dir : String) (input_signatures : List σ)
    (polymorphic_shapes : Option String) (with_gradient : Bool)
    (enable_xla : Bool) (compile_model : Bool)
    (saved_model_options : Option SaveOptions) (fresh_oid : Nat) :
    List (Event α σ) × Except String (SavedArtifact α σ) :=
  match input_signatures with
  | [] => ([], Except.error "At least one input_signature must be given")
  | sig0 :: rest =>
    if polymorphic_shapes.isSome && !rest.isEmpty then
      ([], Except.error
        "For shape-polymorphic conversion a single input_signature is supported.")
    else
      let param_vars : Nest (Variable α) := param_vars_of with_gradient params
      let tf_graph : TfGraph α :=
        tf_graph_of jax_fn params polymorphic_shapes with_gradient enable_xla
          compile_model
      let signatures : List (String × ConcreteFn α σ) :=
        [(DEFAULT_SERVING_SIGNATURE_DEF_KEY, ⟨tf_graph, sig0⟩)]
      let wrapper := ReusableSavedModelWrapper.init tf_graph param_vars
      let final_options : Option SaveOptions :=
        if with_gradient then
          match saved_model_options with
          | none => some ⟨fresh_oid, true⟩
          | some opts => some ⟨opts.oid, true⟩
        else saved_model_options
      ( Event.convertCalled jax_fn with_gradient [none, polymorphic_shapes] enable_xla
          :: Event.traceCalled tf_graph sig0
          :: (rest.map (fun s => Event.traceCalled tf_graph s)
              ++ [Event.saveCalled model_dir]),
        Except.ok ⟨wrapper, model_dir, signatures, final_options⟩ )

mutual

theorem Nest.flatten_map_structure {α β : Type} (f : α → β) :
    ∀ t : Nest α, (t.map_structure f).flatten = t.flatten.map f
  | .leaf a => rfl
  | .node ts => by
      simp only [Nest.map_structure, Nest.flatten]
      exact Nest.flattenList_map_structureList f ts

theorem Nest.flattenList_map_structureList {α β : Type} (f : α → β) :
    ∀ ts : List (Nest α),
      Nest.flattenList (Nest.map_structureList f ts) = (Nest.flattenList ts).map f
  | [] => rfl
  | t :: ts => by
      simp only [Nest.map_structureList, Nest.flattenList, List.map_append]
      rw [Nest.flatten_map_structure f t, Nest.flattenList_map_structureList f ts]

end

mutual

theorem Nest.map_structure_comp {α β γ : Type} (f : α → β) (g : β → γ) :
    ∀ t : Nest α, (t.map_structure f).map_structure g = t.map_structure (fun a => g (f a))
  | .leaf a => rfl
  | .node ts => by
      simp only [Nest.map_structure]
      rw [Nest.map_structureList_comp f g ts]

theorem Nest.map_structureList_comp {α β γ : Type} (f : α → β) (g : β → γ) :
    ∀ ts : List (Nest α),
      Nest.map_structureList g (Nest.map_structureList f ts)
        = Nest.map_structureList (fun a => g (f a)) ts
  | [] => rfl
  | t :: ts => by
      simp only [Nest.map_structureList]
      rw [Nest.map_structure_comp f g t, Nest.map_structureList_comp f g ts]

end

theorem Nest.shape_map_structure {α β : Type} (f : α → β) (t : Nest α) :
    (t.map_structure f).shape = t.shape := by
  simp only [Nest.shape, Nest.map_structure_comp]

/-- C1: with an empty `input_signatures` sequence the routine raises the
invalid-argument `ValueError` and performs no external call at all: the
event list is empty, so neither the conversion service nor the persistence
routine is invoked. -/
theorem C1_empty_signatures_error_no_io {α σ : Type} (jax_fn : Nat) (params : Nest α)
    (model_dir : String) (input_signatures : List σ)
    (polymorphic_shapes : Option String) (with_gradient enable_xla compile_model : Bool)
    (saved_model_options : Option SaveOptions) (fresh_oid : Nat)
    (h : input_signatures = []) :
    convert_and_save_model jax_fn params model_dir input_signatures polymorphic_shapes
        with_gradient enable_xla compile_model saved_model_options fresh_oid
      = ([], Except.error "At least one input_signature must be given") := by
  subst h; rfl

theorem C1_witness :
    convert_and_save_model 7 (Nest.leaf (5 : Nat)) "model_dir" ([] : List Nat) none
        false true true none 0
      = ([], Except.error "At least one input_signature must be given") :=
  C1_empty_signatures_error_no_io 7 (Nest.leaf 5) "model_dir" [] none false true true
    none 0 rfl

/-- C2: with more than one input signature and a non-`None`
`polymorphic_shapes` descriptor the routine raises the invalid-argument
`ValueError`; the event list is empty, so the conversion service was not
invoked before the error. -/
theorem C2_poly_multi_signature_error {α σ : Type} (jax_fn : Nat) (params : Nest α)
    (model_dir : String) (input_signatures : List σ) (p : String)
    (polymorphic_shapes : Option String) (with_gradient enable_xla compile_model : Bool)
    (saved_model_options : Option SaveOptions) (fresh_oid : Nat)
    (hp : polymorphic_shapes = some p) (hlen : 1 < input_signatures.length) :
    convert_and_save_model jax_fn params model_dir input_signatures polymorphic_shapes
        with_gradient enable_xla compile_model saved_model_options fresh_oid
      = ([], Except.error
          "For shape-polymorphic conversion a single input_signature is supported.") := by
  subst hp
  match input_signatures, hlen with
  | s0 :: s1 :: rest, _ => rfl

theorem C2_witness :
    (some "b, 4" = some "b, 4" ∧ 1 < [0, 1].length)
    ∧ convert_and_save_model 7 (Nest.leaf (5 : Nat)) "model_dir" [0, 1] (some "b, 4")
        false true true none 0
      = ([], Except.error
          "For shape-polymorphic conversion a single input_signature is supported.") :=
  ⟨⟨rfl, by decide⟩,
    C2_poly_multi_signature_error 7 (Nest.leaf 5) "model_dir" [0, 1] "b, 4"
      (some "b, 4") false true true none 0 rfl (by decide)⟩

/-- C10: with an empty `input_signatures` sequence and a non-`None`
`polymorphic_shapes` descriptor, the error raised is the empty-signature
one: the emptiness check runs before the polymorphism check. -/
theorem C10_empty_check_precedes_poly_check {α σ : Type} (jax_fn : Nat) (params : Nest α)
    (model_dir : String) (input_signatures : List σ) (p : String)
    (polymorphic_shapes : Option String) (with_gradient enable_xla compile_model : Bool)
    (saved_model_options : Option SaveOptions) (fresh_oid : Nat)
    (hp : polymorphic_shapes = some p) (h : input_signatures = []) :
    convert_and_save_model jax_fn params model_dir input_signatures polymorphic_shapes
        with_gradient enable_xla compile_model saved_model_options fresh_oid
      = ([], Except.error "At least one input_signature must be given") := by
  subst hp; subst h; rfl

theorem C10_witness :
    convert_and_save_model 7 (Nest.leaf (5 : Nat)) "model_dir" ([] : List Nat)
        (some "b, 4") false true true none 0
      = ([], Except.error "At least one input_signature must be given") :=
  C10_empty_check_precedes_poly_check 7 (Nest.leaf 5) "model_dir" [] "b, 4"
    (some "b, 4") false true true none 0 rfl rfl

/-- On the success path (non-empty signatures, and no polymorphic descriptor
or a single signature) the routine calls the conversion service once, traces
once per signature in order, and hands the artifact to the persistence
routine. -/
theorem convert_and_save_model_success {α σ : Type} (jax_fn : Nat) (params : Nest α)
    (model_dir : String) (input_signatures : List σ) (sig0 : σ) (rest : List σ)
    (polymorphic_shapes : Option String) (with_gradient enable_xla compile_model : Bool)
    (saved_model_options : Option SaveOptions) (fresh_oid : Nat)
    (hsig : input_signatures = sig0 :: rest)
    (hcompat : polymorphic_shapes = none ∨ rest = []) :
    convert_and_save_model jax_fn params model_dir input_signatures polymorphic_shapes
        with_gradient enable_xla compile_model saved_model_options fresh_oid
      = ( Event.convertCalled jax_fn with_gradient [none, polymorphic_shapes] enable_xla
            :: Event.traceCalled (tf_graph_of jax_fn params polymorphic_shapes
                with_gradient enable_xla compile_model) sig0
            :: (rest.map (fun s => Event.traceCalled (tf_graph_of jax_fn params
                  polymorphic_shapes with_gradient enable_xla compile_model) s)
                ++ [Event.saveCalled model_dir]),
          Except.ok
            ⟨ReusableSavedModelWrapper.init
                (tf_graph_of jax_fn params polymorphic_shapes with_gradient enable_xla
                  compile_model)
                (param_vars_of with_gradient params),
             model_dir,
             [(DEFAULT_SERVING_SIGNATURE_DEF_KEY,
               ⟨tf_graph_of jax_fn params polymorphic_shapes with_gradient enable_xla
                  compile_model, sig0⟩)],
             if with_gradient then
               match saved_model_options with
               | none => some ⟨fresh_oid, true⟩
               | some opts => some ⟨opts.oid, true⟩
             else saved_model_options⟩ ) := by
  subst hsig
  rcases hcompat with hpoly | hrest
  · subst hpoly; rfl
  · subst hrest; cases polymorphic_shapes <;> rfl

/-- C3: on every successful call the parameter structure stored in the saved
callable is `params` with every leaf wrapped in exactly one `tf.Variable`
whose `trainable` flag equals `with_gradient`; the wrapping preserves the
nested shape, and all parameter cells carry the same flag. -/
theorem C3_param_vars_wrapped_once_trainable_eq_gradient {α σ : Type} (jax_fn : Nat)
    (params : Nest α) (model_dir : String) (input_signatures : List σ) (sig0 : σ)
    (rest : List σ) (polymorphic_shapes : Option String)
    (with_gradient enable_xla compile_model : Bool)
    (saved_model_options : Option SaveOptions) (fresh_oid : Nat)
    (hsig : input_signatures = sig0 :: rest)
    (hcompat : polymorphic_shapes = none ∨ rest = []) :
    ((convert_and_save_model jax_fn params model_dir input_signatures
          polymorphic_shapes with_gradient enable_xla compile_model
          saved_model_options fresh_oid).2.toOption.map
        (fun a => a.wrapper.call.param_vars))
      = some (param_vars_of with_gradient params)
    ∧ Nest.flatten (param_vars_of with_gradient params)
        = params.flatten.map (fun param => ⟨param, with_gradient⟩)
    ∧ (param_vars_of with_gradient params).shape = params.shape
    ∧ ∀ v ∈ Nest.flatten (param_vars_of with_gradient params),
        v.trainable = with_gradient := by
  refine ⟨?_, ?_, ?_, ?_⟩
  · rw [convert_and_save_model_success jax_fn params model_dir input_signatures sig0
      rest polymorphic_shapes with_gradient enable_xla compile_model
      saved_model_options fresh_oid hsig hcompat]
    rfl
  · exact Nest.flatten_map_structure _ params
  · exact Nest.shape_map_structure _ params
  · intro v hv
    rw [param_vars_of, Nest.flatten_map_structure] at hv
    obtain ⟨p, _, rfl⟩ := List.mem_map.mp hv
    rfl

theorem C3_witness :
    ((convert_and_save_model 7 (Nest.node [Nest.leaf (1 : Nat), Nest.leaf 2])
          "model_dir" [3] none true true true none 0).2.toOption.map
        (fun a => a.wrapper.call.param_vars))
      = some (param_vars_of true (Nest.node [Nest.leaf 1, Nest.leaf 2]))
    ∧ Nest.flatten (param_vars_of true (Nest.node [Nest.leaf (1 : Nat), Nest.leaf 2]))
        = (Nest.node [Nest.leaf (1 : Nat), Nest.leaf 2]).flatten.map
            (fun param => ⟨param, true⟩)
    ∧ (param_vars_of true (Nest.node [Nest.leaf (1 : Nat), Nest.leaf 2])).shape
        = (Nest.node [Nest.leaf (1 : Nat), Nest.leaf 2]).shape
    ∧ ∀ v ∈ Nest.flatten (param_vars_of true
          (Nest.node [Nest.leaf (1 : Nat), Nest.leaf 2])),
        v.trainable = true :=
  C3_param_vars_wrapped_once_trainable_eq_gradient 7
    (Nest.node [Nest.leaf 1, Nest.leaf 2]) "model_dir" [3] 3 [] none true true true
    none 0 rfl (Or.inl rfl)

/-- C4: on every successful call the external events are: one conversion,
then exactly one trace per element of `input_signatures` in order (the first
producing the default entry, the others traced for the cache only), then one
save; and the recorded signature map holds exactly the default serving key
bound to the specialization for `input_signatures[0]`, the other traced
results being discarded. -/
theorem C4_default_traced_recorded_rest_traced_discarded {α σ : Type} (jax_fn : Nat)
    (params : Nest α) (model_dir : String) (input_signatures : List σ) (sig0 : σ)
    (rest : List σ) (polymorphic_shapes : Option String)
    (with_gradient enable_xla compile_model : Bool)
    (saved_model_options : Option SaveOptions) (fresh_oid : Nat)
    (hsig : input_signatures = sig0 :: rest)
    (hcompat : polymorphic_shapes = none ∨ rest = []) :
    (convert_and_save_model jax_fn params model_dir input_signatures
          polymorphic_shapes with_gradient enable_xla compile_model
          saved_model_options fresh_oid).1
      = Event.convertCalled jax_fn with_gradient [none, polymorphic_shapes] enable_xla
          :: (input_signatures.map (fun s => Event.traceCalled
                (tf_graph_of jax_fn params polymorphic_shapes with_gradient enable_xla
                  compile_model) s)
              ++ [Event.saveCalled model_dir])
    ∧ ((convert_and_save_model jax_fn params model_dir input_signatures
          polymorphic_shapes with_gradient enable_xla compile_model
          saved_model_options fresh_oid).2.toOption.map (fun a => a.signatures))
        = some [(DEFAULT_SERVING_SIGNATURE_DEF_KEY,
                 ⟨tf_graph_of jax_fn params polymorphic_shapes with_gradient
                    enable_xla compile_model, sig0⟩)] := by
  rw [convert_and_save_model_success jax_fn params model_dir input_signatures sig0
    rest polymorphic_shapes with_gradient enable_xla compile_model
    saved_model_options fresh_oid hsig hcompat]
  subst hsig
  exact ⟨rfl, rfl⟩

theorem C4_witness :
    (convert_and_save_model 7 (Nest.leaf (5 : Nat)) "model_dir" [3, 4] none false true
          true none 0).1
      = Event.convertCalled 7 false [none, none] true
          :: ([3, 4].map (fun s => Event.traceCalled
                (tf_graph_of 7 (Nest.leaf 5) none false true true) s)
              ++ [Event.saveCalled "model_dir"])
    ∧ ((convert_and_save_model 7 (Nest.leaf (5 : Nat)) "model_dir" [3, 4] none false
          true true none 0).2.toOption.map (fun a => a.signatures))
        = some [(DEFAULT_SERVING_SIGNATURE_DEF_KEY,
                 ⟨tf_graph_of 7 (Nest.leaf 5) none false true true, 3⟩)] :=
  C4_default_traced_recorded_rest_traced_discarded 7 (Nest.leaf 5) "model_dir" [3, 4]
    3 [4] none false true true none 0 rfl (Or.inl rfl)

/-- C5 counterexample: with two input signatures the signature map handed to
the persistence routine holds a single entry, not one entry per element of
`input_signatures` (which has two elements). -/
theorem C5_counterexample_one_entry_for_two_signatures :
    ((convert_and_save_model 7 (Nest.leaf (5 : Nat)) "model_dir" [3, 4] none false
          true true none 0).2.toOption.map (fun a => a.signatures.length))
      = some 1
    ∧ [(3 : Nat), 4].length = 2 :=
  ⟨rfl, rfl⟩

/-- C5 (amended): on every successful call the signature map handed to the
persistence routine holds exactly one entry, keyed by the well-known
default-serving key; the remaining signatures are traced but not added to
the map. -/
theorem C5_signature_map_single_default_key {α σ : Type} (jax_fn : Nat)
    (params : Nest α) (model_dir : String) (input_signatures : List σ) (sig0 : σ)
    (rest : List σ) (polymorphic_shapes : Option String)
    (with_gradient enable_xla compile_model : Bool)
    (saved_model_options : Option SaveOptions) (fresh_oid : Nat)
    (hsig : input_signatures = sig0 :: rest)
    (hcompat : polymorphic_shapes = none ∨ rest = []) :
    ((convert_and_save_model jax_fn params model_dir input_signatures
          polymorphic_shapes with_gradient enable_xla compile_model
          saved_model_options fresh_oid).2.toOption.map
        (fun a => a.signatures.map Prod.fst))
      = some [DEFAULT_SERVING_SIGNATURE_DEF_KEY] := by
  rw [convert_and_save_model_success jax_fn params model_dir input_signatures sig0
    rest polymorphic_shapes with_gradient enable_xla compile_model
    saved_model_options fresh_oid hsig hcompat]
  rfl

theorem C5_witness :
    ((convert_and_save_model 7 (Nest.leaf (5 : Nat)) "model_dir" [3, 4] none false
          true true none 0).2.toOption.map (fun a => a.signatures.map Prod.fst))
      = some [DEFAULT_SERVING_SIGNATURE_DEF_KEY] :=
  C5_signature_map_single_default_key 7 (Nest.leaf 5) "model_dir" [3, 4] 3 [4] none
    false true true none 0 rfl (Or.inl rfl)

/-- C6: on every successful call with `with_gradient` true, the options
handed to the persistence routine have the custom-gradient flag set; when no
options object was supplied they are a fresh object (identity `fresh_oid`),
and when one was supplied they are that same object (identity preserved)
mutated so that the flag is set. -/
theorem C6_options_flag_set_fresh_or_in_place {α σ : Type} (jax_fn : Nat)
    (params : Nest α) (model_dir : String) (input_signatures : List σ) (sig0 : σ)
    (rest : List σ) (polymorphic_shapes : Option String)
    (with_gradient enable_xla compile_model : Bool)
    (saved_model_options : Option SaveOptions) (fresh_oid : Nat)
    (hsig : input_signatures = sig0 :: rest)
    (hcompat : polymorphic_shapes = none ∨ rest = [])
    (hgrad : with_gradient = true) :
    ((convert_and_save_model jax_fn params model_dir input_signatures
          polymorphic_shapes with_gradient enable_xla compile_model
          saved_model_options fresh_oid).2.toOption.map (fun a => a.options))
      = some (some
          ⟨match saved_model_options with
            | none => fresh_oid
            | some opts => opts.oid,
           true⟩) := by
  rw [convert_and_save_model_success jax_fn params model_dir input_signatures sig0
    rest polymorphic_shapes with_gradient enable_xla compile_model
    saved_model_options fresh_oid hsig hcompat]
  subst hgrad
  cases saved_model_options <;> rfl

theorem C6_witness :
    (true = true)
    ∧ ((convert_and_save_model 7 (Nest.leaf (5 : Nat)) "model_dir" [3] none true true
          true (some ⟨42, false⟩) 9).2.toOption.map (fun a => a.options))
        = some (some ⟨42, true⟩)
    ∧ ((convert_and_save_model 7 (Nest.leaf (5 : Nat)) "model_dir" [3] none true true
          true none 9).2.toOption.map (fun a => a.options))
        = some (some ⟨9, true⟩) :=
  ⟨rfl,
   C6_options_flag_set_fresh_or_in_place 7 (Nest.leaf 5) "model_dir" [3] 3 [] none
     true true true (some ⟨42, false⟩) 9 rfl (Or.inl rfl) rfl,
   C6_options_flag_set_fresh_or_in_place 7 (Nest.leaf 5) "model_dir" [3] 3 [] none
     true true true none 9 rfl (Or.inl rfl) rfl⟩

/-- C7: for every constructed `_ReusableSavedModelWrapper`, the
`trainable_variables` field is an order-preserving sublist of the
`variables` field, consisting of exactly the cells whose `trainable` flag is
set, whatever nested parameter-cell structure is passed to the
constructor. -/
theorem C7_trainable_subset_order_preserving {α : Type} (tf_graph : TfGraph α)
    (param_vars : Nest (Variable α)) :
    List.Sublist
        (ReusableSavedModelWrapper.init tf_graph param_vars).trainable_variables
        (ReusableSavedModelWrapper.init tf_graph param_vars).variables
    ∧ (ReusableSavedModelWrapper.init tf_graph param_vars).trainable_variables
        = (ReusableSavedModelWrapper.init tf_graph
            param_vars).variables.filter (fun v => v.trainable) :=
  ⟨List.filter_sublist _, rfl⟩

/-- C8: on every successful call with a non-`None` `polymorphic_shapes`
descriptor and a single signature, the very first external event is the
conversion call and it receives the per-argument specification
`[None, descriptor]` (no constraint for the parameters, the caller's
descriptor for the inputs) together with the unchanged `with_gradient` and
`enable_xla` settings; the converted callable in the saved artifact records
the same arguments. -/
theorem C8_poly_descriptor_and_flags_propagated {α σ : Type} (jax_fn : Nat)
    (params : Nest α) (model_dir : String) (input_signatures : List σ) (sig0 : σ)
    (p : String) (polymorphic_shapes : Option String)
    (with_gradient enable_xla compile_model : Bool)
    (saved_model_options : Option SaveOptions) (fresh_oid : Nat)
    (hp : polymorphic_shapes = some p) (hsig : input_signatures = [sig0]) :
    (convert_and_save_model jax_fn params model_dir input_signatures
          polymorphic_shapes with_gradient enable_xla compile_model
          saved_model_options fresh_oid).1.head?
      = some (Event.convertCalled jax_fn with_gradient [none, some p] enable_xla)
    ∧ ((convert_and_save_model jax_fn params model_dir input_signatures
          polymorphic_shapes with_gradient enable_xla compile_model
          saved_model_options fresh_oid).2.toOption.map (fun a => a.wrapper.call.fn))
        = some ⟨jax_fn, with_gradient, [none, some p], enable_xla⟩ := by
  subst hp; subst hsig
  exact ⟨rfl, rfl⟩

theorem C8_witness :
    (convert_and_save_model 7 (Nest.leaf (5 : Nat)) "model_dir" [3] (some "b, 4")
          true false false none 0).1.head?
      = some (Event.convertCalled 7 true [none, some "b, 4"] false)
    ∧ ((convert_and_save_model 7 (Nest.leaf (5 : Nat)) "model_dir" [3] (some "b, 4")
          true false false none 0).2.toOption.map (fun a => a.wrapper.call.fn))
        = some ⟨7, true, [none, some "b, 4"], false⟩ :=
  C8_poly_descriptor_and_flags_propagated 7 (Nest.leaf 5) "model_dir" [3] 3 "b, 4"
    (some "b, 4") true false false none 0 rfl rfl

/-- C9: the routine is deterministic in everything but the destination path:
two calls that differ only in `model_dir` produce artifacts with the same
wrapper (hence the same default entry point and identical outputs on
identical inputs), the same signature map and the same options. -/
theorem C9_deterministic_up_to_destination {α σ : Type} (jax_fn : Nat)
    (params : Nest α) (dir1 dir2 : String) (input_signatures : List σ)
    (polymorphic_shapes : Option String)
    (with_gradient enable_xla compile_model : Bool)
    (saved_model_options : Option SaveOptions) (fresh_oid : Nat) :
    ((convert_and_save_model jax_fn params dir1 input_signatures polymorphic_shapes
          with_gradient enable_xla compile_model saved_model_options
          fresh_oid).2.toOption.map (fun a => (a.wrapper, a.signatures, a.options)))
      = ((convert_and_save_model jax_fn params dir2 input_signatures
          polymorphic_shapes with_gradient enable_xla compile_model
          saved_model_options fresh_oid).2.toOption.map
          (fun a => (a.wrapper, a.signatures, a.options))) := by
  cases input_signatures with
  | nil => rfl
  | cons sig0 rest =>
    simp only [convert_and_save_model]
    split
    · rfl
    · rfl

end SavedModelLib
